import Mathlib

/-!
Verification development for the Transaction Consistency Engine of a
personal-finance ledger manager (balance reconciliation, category cascade,
duplicate matching, account-type helpers).

The definitions below are a shallow embedding of the TypeScript source:
  * `Account.computeBalance`, `Account.computeOutstandingSum`,
    `Account.ensureBalance` and the static accessors, from the `Account`
    entity (server/models/entities/accounts.ts part of the bundle);
  * `destroy` from server/controllers/categories.ts;
  * `accountTypeIdToName` / `accountTypeNameToId` from lib/account-types;
  * `findDuplicates`, modelled from the spec (the matcher itself is not
    among the provided source files).

Amounts are embedded as exact rationals (the data model declares amounts
as decimal fixed-point values); a second embedding (`JsNum`) adds the NaN
element of the dynamic number type in order to study malformed rows.
Asynchronous store access is embedded by passing the fetched rows (or the
whole store state) explicitly; fallible store writes are embedded by an
explicit failure schedule.
-/

/-- A calendar date (year, month, day); comparisons at day granularity. -/
structure DateYMD where
  y : Int
  m : Int
  d : Int
deriving DecidableEq, Repr

/-- Day-granularity `isSameOrBefore`: lexicographic comparison of (y, m, d). -/
def DateYMD.sameOrBefore (a b : DateYMD) : Bool :=
  a.y < b.y || (a.y == b.y && (a.m < b.m || (a.m == b.m && a.d ≤ b.d)))

/-- Day-granularity `isAfter`. -/
def DateYMD.isAfter (a b : DateYMD) : Bool :=
  !(a.sameOrBefore b)

/-- A ledger transaction row. `amount` is an exact decimal; `date` is
`none` when the stored date is malformed (unparseable). -/
structure Transaction where
  id : Nat
  userId : Nat
  accountId : Nat
  categoryId : Option Nat
  amount : ℚ
  date : Option DateYMD
  tType : String
  customLabel : Option String
deriving DecidableEq, Repr

/-- The account entity: the fields the reconciler reads or writes.
`balance` is nullable; `none` means "needs recomputation". -/
structure Account where
  id : Nat
  userId : Nat
  accessId : Nat
  vendorId : String
  type : String
  initialBalance : ℚ
  balance : Option ℚ
deriving DecidableEq, Repr

structure Category where
  id : Nat
  userId : Nat
  label : String
deriving DecidableEq, Repr

structure Budget where
  id : Nat
  userId : Nat
  categoryId : Nat
deriving DecidableEq, Repr

/-- Account type reported by the backend for deferred card transactions. -/
def DEFERRED_CARD_TYPE : String := "type.deferred_card"

/-- Account type for card accounts, whose bank-reported balance is
forward-looking. -/
def ACCOUNT_TYPE_CARD : String := "type.card"

def UNKNOWN_ACCOUNT_TYPE : String := "account-type.unknown"

/-- Modelled from the spec: `shouldIncludeInBalance(tx, today, accountType)`
(the helper itself is not among the provided source files). A transaction is
included in the balance iff its date is on or before today (day granularity)
and it is not a deferred-card transaction on a non-card account
(pending/future-dated transactions are excluded from balance unless the
account type treats balance as forward-looking). A malformed date compares
false against every date, hence the row is excluded. -/
def shouldIncludeInBalance (date : Option DateYMD) (tType : String)
    (today : DateYMD) (accountType : String) : Bool :=
  match date with
  | none => false
  | some d =>
    d.sameOrBefore today && (tType != DEFERRED_CARD_TYPE || accountType == ACCOUNT_TYPE_CARD)

/-- Modelled from the spec: `shouldIncludeInOutstandingSum(tx, limitToCurrentMonth)`
(the helper itself is not among the provided source files). Pending or
future-dated transactions are included; when `limitToCurrentMonth` is set,
only those in the current month. A malformed date compares false against
every date, hence the row is excluded. -/
def shouldIncludeInOutstandingSum (date : Option DateYMD) (tType : String)
    (limitToCurrentMonth : Bool) (today : DateYMD) : Bool :=
  match date with
  | none => false
  | some d =>
    (d.isAfter today || tType == DEFERRED_CARD_TYPE) &&
      (!limitToCurrentMonth || (d.y == today.y && d.m == today.m))

/-- JavaScript `Math.round`: round to the nearest integer, halves toward
positive infinity (the floor of `x + 1/2`). -/
def jsRound (x : ℚ) : Int :=
  (x + 1 / 2).floor

/-- `Math.round(s * 100) / 100`: round half-up to two decimal places. -/
def round2 (x : ℚ) : ℚ :=
  (jsRound (x * 100) : ℚ) / 100

/-- `Transaction.byAccount(userId, account)`: the account's transaction rows. -/
def Transaction.byAccount (txs : List Transaction) (userId : Nat) (a : Account) :
    List Transaction :=
  txs.filter fun t => t.userId == userId && t.accountId == a.id

/-- `Transaction.byCategory(userId, categoryId)`. -/
def Transaction.byCategory (txs : List Transaction) (userId categoryId : Nat) :
    List Transaction :=
  txs.filter fun t => t.userId == userId && t.categoryId == some categoryId

/-- `Category.find(userId, categoryId)`. -/
def Category.find (cats : List Category) (userId categoryId : Nat) : Option Category :=
  cats.find? fun c => c.userId == userId && c.id == categoryId

/-- `computeBalance(offset = 0)`: fetch the account's transactions, filter by
`shouldIncludeInBalance`, reduce by addition starting from `offset`, round to
two decimals. The method body contains no assignment, so the embedding
returns the receiver unchanged in the first component, the numeric result in
the second. -/
def Account.computeBalance (a : Account) (txs : List Transaction) (today : DateYMD)
    (offset : ℚ) : Account × ℚ :=
  let ops := Transaction.byAccount txs a.userId a
  let s := (ops.filter fun op => shouldIncludeInBalance op.date op.tType today a.type).foldl
    (fun sum op => sum + op.amount) offset
  (a, round2 s)

/-- `Account.ensureBalance(account)`: when the cached balance is null,
recompute it — note the source calls `account.computeBalance()` with the
default offset 0, not `account.initialBalance`, although its own comment says
the balance is computed "based on the initial amount and the transactions".
When the cached balance is non-null, no-op. -/
def Account.ensureBalance (txs : List Transaction) (today : DateYMD) (a : Account) :
    Account :=
  match a.balance with
  | none => { a with balance := some (Account.computeBalance a txs today 0).2 }
  | some _ => a

/-- `Account.byVendorId(userId, { uuid })`: filter the repository, then run
`ensureBalance` on every returned account. -/
def Account.byVendorId (repo : List Account) (txs : List Transaction) (today : DateYMD)
    (userId : Nat) (vendorId : String) : List Account :=
  ((repo.filter fun a => a.userId == userId && a.vendorId == vendorId).map
    (Account.ensureBalance txs today))

/-- `Account.findMany(userId, accountIds)`. -/
def Account.findMany (repo : List Account) (txs : List Transaction) (today : DateYMD)
    (userId : Nat) (accountIds : List Nat) : List Account :=
  ((repo.filter fun a => a.userId == userId && accountIds.contains a.id).map
    (Account.ensureBalance txs today))

/-- `Account.byAccess(userId, access)`. -/
def Account.byAccess (repo : List Account) (txs : List Transaction) (today : DateYMD)
    (userId : Nat) (accessId : Nat) : List Account :=
  ((repo.filter fun a => a.userId == userId && a.accessId == accessId).map
    (Account.ensureBalance txs today))

/-- `Account.find(userId, accountId)`: `findOne`, then `ensureBalance` when found. -/
def Account.find (repo : List Account) (txs : List Transaction) (today : DateYMD)
    (userId : Nat) (accountId : Nat) : Option Account :=
  (repo.find? fun a => a.userId == userId && a.id == accountId).map
    (Account.ensureBalance txs today)

/-- `Account.all(userId)`. -/
def Account.all (repo : List Account) (txs : List Transaction) (today : DateYMD)
    (userId : Nat) : List Account :=
  ((repo.filter fun a => a.userId == userId).map (Account.ensureBalance txs today))

/-- `Account.create(userId, attributes)`: build the entity with the caller's
`userId`, save it, then `ensureBalance` it before returning. -/
def Account.create (txs : List Transaction) (today : DateYMD) (userId : Nat)
    (attributes : Account) : Account :=
  Account.ensureBalance txs today { attributes with userId := userId }

/-! ### Dynamic-number refinement: malformed amounts

The amount column goes through a numeric transformer; a malformed stored
value parses to the NaN element of the dynamic number type. `JsNum` adds
that element to the exact decimals; addition, rounding and division
propagate NaN exactly as the dynamic operators do. -/

inductive JsNum where
  | nan : JsNum
  | num : ℚ → JsNum
deriving DecidableEq, Repr

def JsNum.add : JsNum → JsNum → JsNum
  | JsNum.num a, JsNum.num b => JsNum.num (a + b)
  | _, _ => JsNum.nan

/-- `Math.round(s * 100) / 100` on a dynamic number: NaN stays NaN. -/
def round2Js : JsNum → JsNum
  | JsNum.nan => JsNum.nan
  | JsNum.num q => JsNum.num (round2 q)

/-- A transaction row whose amount may be the malformed (NaN) value. -/
structure TxRaw where
  id : Nat
  userId : Nat
  accountId : Nat
  amount : JsNum
  date : Option DateYMD
  tType : String
deriving DecidableEq, Repr

/-- `computeBalance` over rows whose amounts may be malformed. The second
component threads the logger output of the method body: the source makes no
logging call inside `computeBalance`, so it is always empty. -/
def Account.computeBalanceJs (a : Account) (txs : List TxRaw) (today : DateYMD)
    (offset : JsNum) : JsNum × List String :=
  let ops := txs.filter fun t => t.userId == a.userId && t.accountId == a.id
  let s := (ops.filter fun op => shouldIncludeInBalance op.date op.tType today a.type).foldl
    (fun sum op => JsNum.add sum op.amount) offset
  (round2Js s, [])

/-- `computeOutstandingSum` over rows whose amounts may be malformed; the
second component threads the (always empty) logger output of the method body. -/
def Account.computeOutstandingSumJs (a : Account) (txs : List TxRaw)
    (limitToCurrentMonth : Bool) (today : DateYMD) : JsNum × List String :=
  let ops := txs.filter fun t => t.userId == a.userId && t.accountId == a.id
  let s := (ops.filter fun op =>
      shouldIncludeInOutstandingSum op.date op.tType limitToCurrentMonth today).foldl
    (fun sum op => JsNum.add sum op.amount) (JsNum.num 0)
  (round2Js s, [])

/-! ### Category cascade (`destroy` in controllers/categories.ts)

The store state is the user-visible rows; each store write is reified as a
`WriteOp` so that the order of writes is part of the result. Fallible
persistence is embedded by a failure schedule: `failAt = some k` makes the
k-th write (0-based) raise a store error, `none` makes every write succeed. -/

structure LedgerState where
  transactions : List Transaction
  budgets : List Budget
  categories : List Category
deriving DecidableEq, Repr

structure KError where
  status : Nat
  message : String
deriving DecidableEq, Repr

def storeError : KError := ⟨500, "StoreError"⟩

instance {α β : Type} [DecidableEq α] [DecidableEq β] : DecidableEq (Except α β) :=
  fun x y =>
    match x, y with
    | Except.ok a, Except.ok b =>
      match decEq a b with
      | isTrue h => isTrue (by rw [h])
      | isFalse h => isFalse (by intro hc; cases hc; exact h rfl)
    | Except.error a, Except.error b =>
      match decEq a b with
      | isTrue h => isTrue (by rw [h])
      | isFalse h => isFalse (by intro hc; cases hc; exact h rfl)
    | Except.ok _, Except.error _ => isFalse (by intro hc; cases hc)
    | Except.error _, Except.ok _ => isFalse (by intro hc; cases hc)

inductive WriteOp where
  | updateTransactionCategory : Nat → Nat → Option Nat → WriteOp
  | destroyBudgetsForCategory : Nat → Nat → Option Nat → WriteOp
  | destroyCategoryRow : Nat → Nat → WriteOp
deriving DecidableEq, Repr

/-- `Transaction.update(userId, id, { categoryId })` applied to one row. -/
def applyTxUpdate (userId txId : Nat) (categoryId : Option Nat) (t : Transaction) :
    Transaction :=
  if t.userId == userId && t.id == txId then { t with categoryId := categoryId } else t

/-- Effect of one store write. The budget case is modelled from the spec
(the Budget model is not among the provided source files): every budget
scoped to the category is removed, budgets do not transfer to the
replacement. -/
def applyWrite (st : LedgerState) : WriteOp → LedgerState
  | WriteOp.updateTransactionCategory u i c =>
    { st with transactions := st.transactions.map (applyTxUpdate u i c) }
  | WriteOp.destroyBudgetsForCategory u c _ =>
    { st with budgets := st.budgets.filter fun b => !(b.userId == u && b.categoryId == c) }
  | WriteOp.destroyCategoryRow u c =>
    { st with categories := st.categories.filter fun k => !(k.userId == u && k.id == c) }

/-- Run store writes in order; the write whose index matches the failure
schedule raises a store error, aborting the remainder with no rollback.
Returns the outcome, the final state, and the trace of performed writes. -/
def runWrites (failAt : Option Nat) :
    List WriteOp → Nat → LedgerState → Except KError Unit × LedgerState × List WriteOp
  | [], _, st => (Except.ok (), st, [])
  | w :: ws, i, st =>
    if failAt == some i then (Except.error storeError, st, [])
    else
      let r := runWrites failAt ws (i + 1) (applyWrite st w)
      (r.1, r.2.1, w :: r.2.2)

/-- The write sequence the `destroy` controller issues once its checks have
passed: one `Transaction.update` per transaction of the category (in store
order), then `Budget.destroyForCategory`, then `Category.destroy`. -/
def plannedWrites (st : LedgerState) (userId formerId : Nat) (categoryId : Option Nat) :
    List WriteOp :=
  (Transaction.byCategory st.transactions userId formerId).map
      (fun op => WriteOp.updateTransactionCategory userId op.id categoryId)
    ++ [WriteOp.destroyBudgetsForCategory userId formerId categoryId,
        WriteOp.destroyCategoryRow userId formerId]

/-- The `destroy` controller. `former` is the preloaded category being
deleted; `body` is `none` when the `replaceByCategoryId` field is missing
(a 400), otherwise `some replaceBy` with `replaceBy` the (nullable)
replacement id. A non-null replacement that names no category of the user
fails with a 404 before any write. -/
def destroy (st : LedgerState) (userId : Nat) (former : Category)
    (body : Option (Option Nat)) (failAt : Option Nat) :
    Except KError Unit × LedgerState × List WriteOp :=
  match body with
  | none => (Except.error ⟨400, "Missing parameter replaceByCategoryId"⟩, st, [])
  | some replaceBy =>
    match replaceBy, Category.find st.categories userId (replaceBy.getD 0) with
    | some _, none => (Except.error ⟨404, "Replacement category not found"⟩, st, [])
    | _, _ => runWrites failAt (plannedWrites st userId former.id replaceBy) 0 st

/-! ### Account-type lookup helpers (lib/account-types) -/

structure AccountType where
  weboobvalue : Int
  name : String
deriving DecidableEq, Repr

/-- The `AccountTypeToName` map: built by inserting `(toString weboobvalue,
name)` for each table row in order, later rows overwriting earlier ones, so a
lookup returns the value of the last row whose stringified id matches. -/
def accountTypeMapLookup (table : List AccountType) (key : String) : Option String :=
  ((table.map fun t => (toString t.weboobvalue, t.name)).reverse.find? fun p =>
    p.1 == key).map fun p => p.2

/-- A falsy account-type id: the absent value (null/undefined) or 0. -/
def falsyId (externalId : Option Int) : Bool :=
  match externalId with
  | none => true
  | some v => v == 0

/-- `accountTypeIdToName(externalId)`: null for falsy input (without any
logging); for a present id, look the stringified id up in the map, logging an
error diagnostic and returning null when it is absent. The second component
threads the logger output. The function is total: it never throws. -/
def accountTypeIdToName (table : List AccountType) (externalId : Option Int) :
    Option String × List String :=
  if falsyId externalId then (none, [])
  else
    let key := toString ((externalId.getD 0))
    match accountTypeMapLookup table key with
    | none => (none, [s!"Error: {key} is undefined, please contact a kresus maintainer"])
    | some nm => (some nm, [])

/-- `accountTypeNameToId(name)`: the `weboobvalue` of the first table row with
that name, or -1 when absent. Total: it never throws. -/
def accountTypeNameToId (table : List AccountType) (name : String) : Int :=
  match table.find? fun t => t.name == name with
  | some t => t.weboobvalue
  | none => -1

/-! ### Duplicate matcher

Modelled from the spec: `findDuplicates(transactions, thresholdHours,
ignoreCustomFields)` is not among the provided source files (only the client
settings dialog for its parameters is). Transactions are sorted by value
date once; each transaction is compared only against subsequent transactions
within `thresholdHours`; a pair is a candidate iff same account, same signed
amount, and — unless `ignoreCustomFields` — same custom label (or both
absent); pairs the user already dismissed are excluded. A missing
(non-numeric) or negative threshold is a configuration error, rejected
before matching begins. -/

structure DupTx where
  id : Nat
  accountId : Nat
  amount : ℚ
  date : Int
  customLabel : Option String
deriving DecidableEq, Repr

def HOUR_MS : Int := 3600000

def duplicateCandidate (ignoreCustomFields : Bool) (a b : DupTx) : Bool :=
  a.accountId == b.accountId && a.amount == b.amount &&
    (ignoreCustomFields || a.customLabel == b.customLabel)

def dismissedPair (ex : List (Nat × Nat)) (a b : DupTx) : Bool :=
  ex.contains (a.id, b.id) || ex.contains (b.id, a.id)

/-- Pair each transaction with the subsequent transactions at most
`t` hours later (time-windowed scan over the date-sorted list). -/
def windowPairs (t : Int) : List DupTx → List (DupTx × DupTx)
  | [] => []
  | x :: xs =>
    ((xs.takeWhile fun y => decide (y.date - x.date ≤ t * HOUR_MS)).map fun y => (x, y))
      ++ windowPairs t xs

/-- Modelled from the spec: the duplicate matcher. `thresholdHours = none`
embeds a non-numeric threshold. -/
def findDuplicates (thresholdHours : Option Int) (txs : List DupTx)
    (ignoreCustomFields : Bool) (ex : List (Nat × Nat)) :
    Except String (List (DupTx × DupTx)) :=
  match thresholdHours with
  | none => Except.error "invalid duplicate threshold"
  | some t =>
    if t < 0 then Except.error "invalid duplicate threshold"
    else
      let sorted := List.insertionSort (fun a b : DupTx => a.date ≤ b.date) txs
      Except.ok ((windowPairs t sorted).filter fun p =>
        duplicateCandidate ignoreCustomFields p.1 p.2 && !dismissedPair ex p.1 p.2)

instance : IsTotal DupTx (fun a b => a.date ≤ b.date) :=
  ⟨fun a b => Int.le_total a.date b.date⟩

instance : IsTrans DupTx (fun a b => a.date ≤ b.date) :=
  ⟨fun _ _ _ h1 h2 => le_trans h1 h2⟩

/-- Pointwise effect of a batch of `Transaction.update` writes, one per id in
`ids`, each setting `categoryId` to `v` for the rows of user `u`. -/
def applyIdUpdates (u : Nat) (v : Option Nat) (ids : List Nat) (t : Transaction) :
    Transaction :=
  if t.userId = u ∧ t.id ∈ ids then { t with categoryId := v } else t

/-! ### Concrete sample data used by witnesses and counterexamples -/

def sampleDate : DateYMD := ⟨2022, 6, 1⟩

def futureDate : DateYMD := ⟨2022, 6, 20⟩

def sampleAcctNullBalance : Account :=
  ⟨1, 1, 1, "bank", UNKNOWN_ACCOUNT_TYPE, 100, none⟩

def sampleCardAcct : Account :=
  ⟨1, 1, 1, "bank", ACCOUNT_TYPE_CARD, 0, some 0⟩

def sampleCheckingAcct : Account :=
  ⟨1, 1, 1, "bank", UNKNOWN_ACCOUNT_TYPE, 0, some 0⟩

def sampleDeferredTx : Transaction :=
  ⟨1, 1, 1, none, 20, some sampleDate, DEFERRED_CARD_TYPE, none⟩

def txW1 : Transaction := ⟨2, 1, 1, none, 7, some sampleDate, "type.unknown", none⟩

def txW2 : Transaction := ⟨3, 1, 1, none, -3, some sampleDate, "type.unknown", none⟩

def cat7 : Category := ⟨7, 1, "food"⟩

def txC1 : Transaction := ⟨1, 1, 1, some 7, 10, some sampleDate, "type.unknown", none⟩

def txC2 : Transaction := ⟨2, 1, 1, some 7, -5, some sampleDate, "type.unknown", none⟩

def bud7 : Budget := ⟨1, 1, 7⟩

def st0 : LedgerState := ⟨[txC1, txC2], [bud7], [cat7]⟩

def acct6 : Account := ⟨1, 1, 1, "bank", UNKNOWN_ACCOUNT_TYPE, 0, none⟩

def rawGood : TxRaw := ⟨1, 1, 1, JsNum.num 50, some sampleDate, "type.unknown"⟩

def rawNaN : TxRaw := ⟨2, 1, 1, JsNum.nan, some sampleDate, "type.unknown"⟩

def rawBadDate : TxRaw := ⟨3, 1, 1, JsNum.num 20, none, "type.unknown"⟩

def rawFut : TxRaw := ⟨4, 1, 1, JsNum.num 30, some futureDate, "type.unknown"⟩

def rawNaNFut : TxRaw := ⟨5, 1, 1, JsNum.nan, some futureDate, "type.unknown"⟩

def dupA : DupTx := ⟨1, 1, -5, 0, none⟩

def dupB : DupTx := ⟨2, 1, -5, 0, none⟩

def sampleTypeTable : List AccountType := [⟨1, "checking"⟩, ⟨2, "card"⟩]

/-! ### Helper lemmas -/

theorem foldl_add_eq {α : Type} (f : α → ℚ) :
    ∀ (l : List α) (off : ℚ), l.foldl (fun s x => s + f x) off = off + (l.map f).sum
  | [], off => by simp
  | x :: l, off => by
    rw [List.foldl_cons, foldl_add_eq f l (off + f x), List.map_cons, List.sum_cons]
    ring

theorem ensureBalance_isSome (txs : List Transaction) (today : DateYMD) (a : Account) :
    (Account.ensureBalance txs today a).balance.isSome := by
  cases hb : a.balance <;> simp [Account.ensureBalance, hb]

theorem runWrites_none : ∀ (ws : List WriteOp) (i : Nat) (st : LedgerState),
    runWrites none ws i st = (Except.ok (), ws.foldl applyWrite st, ws)
  | [], _, _ => rfl
  | w :: ws, i, st => by
    rw [runWrites, runWrites_none ws (i + 1) (applyWrite st w)]
    simp [List.foldl_cons]

theorem runWrites_fail : ∀ (ws : List WriteOp) (i k : Nat) (st : LedgerState),
    k < ws.length →
    runWrites (some (i + k)) ws i st =
      (Except.error storeError, (ws.take k).foldl applyWrite st, ws.take k)
  | [], _, k, _, hk => absurd hk (by simp)
  | w :: ws, i, 0, st, _ => by
    rw [runWrites]
    simp
  | w :: ws, i, k + 1, st, hk => by
    rw [runWrites]
    have hne : (some (i + (k + 1)) == some i) = false := by
      simp [Nat.add_comm, Nat.succ_ne_zero]
    rw [hne]
    have := runWrites_fail ws (i + 1) k (applyWrite st w) (by simpa using Nat.lt_of_succ_lt_succ hk)
    rw [show i + (k + 1) = (i + 1) + k by omega, this]
    simp [List.take_succ_cons, List.foldl_cons]

theorem JsNum.add_nan_left (x : JsNum) : JsNum.add JsNum.nan x = JsNum.nan := by
  cases x <;> rfl

theorem JsNum.add_nan_right (x : JsNum) : JsNum.add x JsNum.nan = JsNum.nan := by
  cases x <;> rfl

theorem foldl_addJs_nan_acc : ∀ (l : List TxRaw),
    l.foldl (fun s t => JsNum.add s t.amount) JsNum.nan = JsNum.nan
  | [] => rfl
  | t :: l => by
    rw [List.foldl_cons, JsNum.add_nan_left]
    exact foldl_addJs_nan_acc l

theorem foldl_addJs_nan : ∀ (l : List TxRaw) (off : JsNum),
    (∃ t ∈ l, t.amount = JsNum.nan) →
    l.foldl (fun s t => JsNum.add s t.amount) off = JsNum.nan
  | [], _, h => absurd h (by simp)
  | t :: l, off, h => by
    rw [List.foldl_cons]
    rcases h with ⟨s, hs, hnan⟩
    rcases List.mem_cons.1 hs with rfl | hmem
    · rw [hnan, JsNum.add_nan_right]
      exact foldl_addJs_nan_acc l
    · exact foldl_addJs_nan l _ ⟨s, hmem, hnan⟩

theorem applyIdUpdates_cons (u : Nat) (v : Option Nat) (i : Nat) (ids : List Nat)
    (t : Transaction) :
    applyIdUpdates u v ids (applyTxUpdate u i v t) = applyIdUpdates u v (i :: ids) t := by
  by_cases hu : t.userId = u
  · by_cases hi : t.id = i
    · simp [applyTxUpdate, applyIdUpdates, hu, hi]
    · simp [applyTxUpdate, applyIdUpdates, hu, hi]
  · simp [applyTxUpdate, applyIdUpdates, hu]

theorem foldl_update_writes (u : Nat) (v : Option Nat) :
    ∀ (ids : List Nat) (st : LedgerState),
    ((ids.map fun i => WriteOp.updateTransactionCategory u i v).foldl applyWrite st) =
      { st with transactions := st.transactions.map (applyIdUpdates u v ids) }
  | [], st => by
    have h : applyIdUpdates u v [] = id := funext fun t => by simp [applyIdUpdates]
    show st = { st with transactions := st.transactions.map (applyIdUpdates u v []) }
    rw [h, List.map_id]
  | i :: ids, st => by
    rw [List.map_cons, List.foldl_cons, foldl_update_writes u v ids]
    show ({ st with transactions :=
        (st.transactions.map (applyTxUpdate u i v)).map (applyIdUpdates u v ids) } :
      LedgerState) = _
    rw [List.map_map]
    have h : applyIdUpdates u v ids ∘ applyTxUpdate u i v = applyIdUpdates u v (i :: ids) :=
      funext (applyIdUpdates_cons u v i ids)
    rw [h]

/-! ### Claim theorems -/

/-- Claim C1 (code bug): at the failing input — an account with
`initialBalance = 100`, `balance = null` and no transactions —
`ensureBalance` recomputes the balance as `computeBalance()` with the
default offset 0, dropping the initial balance: the resulting balance is 0,
not `initialBalance + 0 = 100` as the claim (and the source's own comment,
"compute one based on the initial amount and the transactions") demands. -/
theorem ensureBalance_ignores_initialBalance :
    sampleAcctNullBalance.initialBalance = 100 ∧
    (Account.ensureBalance [] sampleDate sampleAcctNullBalance).balance = some 0 ∧
    (Account.ensureBalance [] sampleDate sampleAcctNullBalance).balance ≠
      some sampleAcctNullBalance.initialBalance := by
  refine ⟨rfl, ?_, ?_⟩ <;>
    norm_num [Account.ensureBalance, Account.computeBalance, Transaction.byAccount,
      sampleAcctNullBalance, round2, jsRound, Rat.floor_def']

/-- Claim C2: `computeBalance(account, offset)` is pure — the receiver comes
back unchanged — and returns `offset` plus the sum of the amounts of exactly
the transactions satisfying `shouldIncludeInBalance`, rounded half-up to two
decimal places. -/
theorem computeBalance_pure_and_sum (a : Account) (txs : List Transaction)
    (today : DateYMD) (offset : ℚ) :
    (Account.computeBalance a txs today offset).1 = a ∧
    (Account.computeBalance a txs today offset).2 =
      round2 (offset + (((Transaction.byAccount txs a.userId a).filter fun op =>
        shouldIncludeInBalance op.date op.tType today a.type).map Transaction.amount).sum) := by
  refine ⟨rfl, ?_⟩
  show round2 (((Transaction.byAccount txs a.userId a).filter fun op =>
      shouldIncludeInBalance op.date op.tType today a.type).foldl
        (fun sum op => sum + op.amount) offset) = _
  rw [foldl_add_eq Transaction.amount]

/-- Claim C4: when the replacement id names no category of the user,
`destroy` fails with a 404 error before any mutation: the store is unchanged
and no write was performed. -/
theorem destroy_replacement_not_found (st : LedgerState) (u : Nat) (former : Category)
    (rid : Nat) (failAt : Option Nat)
    (h : Category.find st.categories u rid = none) :
    destroy st u former (some (some rid)) failAt =
      (Except.error ⟨404, "Replacement category not found"⟩, st, []) := by
  simp [destroy, Option.getD_some, h]

/-- Witness for C4 at a concrete store: category 99 does not exist. -/
theorem destroy_replacement_not_found_witness :
    destroy st0 1 cat7 (some (some 99)) none =
      (Except.error ⟨404, "Replacement category not found"⟩, st0, []) :=
  destroy_replacement_not_found st0 1 cat7 99 none (by decide)

/-- Claim C9: every account returned by the static accessors `byVendorId`,
`findMany`, `byAccess`, `find`, `all` and `create` has been through
`ensureBalance`, hence has a non-null balance. -/
theorem accessors_return_nonnull_balance :
    (∀ repo txs today u v a, a ∈ Account.byVendorId repo txs today u v →
      a.balance.isSome) ∧
    (∀ repo txs today u ids a, a ∈ Account.findMany repo txs today u ids →
      a.balance.isSome) ∧
    (∀ repo txs today u acc a, a ∈ Account.byAccess repo txs today u acc →
      a.balance.isSome) ∧
    (∀ repo txs today u i a, Account.find repo txs today u i = some a →
      a.balance.isSome) ∧
    (∀ repo txs today u a, a ∈ Account.all repo txs today u → a.balance.isSome) ∧
    (∀ txs today u attrs, (Account.create txs today u attrs).balance.isSome) := by
  refine ⟨?_, ?_, ?_, ?_, ?_, ?_⟩
  · intro repo txs today u v a ha
    rcases List.mem_map.1 ha with ⟨b, _, rfl⟩
    exact ensureBalance_isSome _ _ _
  · intro repo txs today u ids a ha
    rcases List.mem_map.1 ha with ⟨b, _, rfl⟩
    exact ensureBalance_isSome _ _ _
  · intro repo txs today u acc a ha
    rcases List.mem_map.1 ha with ⟨b, _, rfl⟩
    exact ensureBalance_isSome _ _ _
  · intro repo txs today u i a ha
    rcases Option.map_eq_some'.1 ha with ⟨b, _, rfl⟩
    exact ensureBalance_isSome _ _ _
  · intro repo txs today u a ha
    rcases List.mem_map.1 ha with ⟨b, _, rfl⟩
    exact ensureBalance_isSome _ _ _
  · intro txs today u attrs
    exact ensureBalance_isSome _ _ _

/-- Witness for C9 at a concrete one-account repository whose stored balance
is null: every accessor returns it with a recomputed, non-null balance. -/
theorem accessors_return_nonnull_balance_witness :
    (Account.ensureBalance [] sampleDate sampleAcctNullBalance).balance.isSome ∧
    (Account.ensureBalance [] sampleDate sampleAcctNullBalance).balance.isSome ∧
    (Account.ensureBalance [] sampleDate sampleAcctNullBalance).balance.isSome ∧
    (Account.ensureBalance [] sampleDate sampleAcctNullBalance).balance.isSome ∧
    (Account.ensureBalance [] sampleDate sampleAcctNullBalance).balance.isSome ∧
    (Account.create [] sampleDate 1 sampleAcctNullBalance).balance.isSome :=
  ⟨accessors_return_nonnull_balance.1 [sampleAcctNullBalance] [] sampleDate 1 "bank" _
      (by simp [Account.byVendorId, sampleAcctNullBalance]),
   accessors_return_nonnull_balance.2.1 [sampleAcctNullBalance] [] sampleDate 1 [1] _
      (by simp [Account.findMany, sampleAcctNullBalance]),
   accessors_return_nonnull_balance.2.2.1 [sampleAcctNullBalance] [] sampleDate 1 1 _
      (by simp [Account.byAccess, sampleAcctNullBalance]),
   accessors_return_nonnull_balance.2.2.2.1 [sampleAcctNullBalance] [] sampleDate 1 1 _
      (by simp [Account.find, sampleAcctNullBalance]),
   accessors_return_nonnull_balance.2.2.2.2.1 [sampleAcctNullBalance] [] sampleDate 1 _
      (by simp [Account.all, sampleAcctNullBalance]),
   accessors_return_nonnull_balance.2.2.2.2.2 [] sampleDate 1 sampleAcctNullBalance⟩

/-- Claim C3 counterexample: with two transactions in the category and a
store error on the second write, `destroy` surfaces the error but the store
is left partially migrated — the first transaction is re-pointed, the second
still references the category, and the budget and the category row are still
present. The cascade is not rolled back. -/
theorem destroy_store_error_leaves_partial_state :
    (destroy st0 1 cat7 (some none) (some 1)).1 = Except.error storeError ∧
    (destroy st0 1 cat7 (some none) (some 1)).2.1 ≠ st0 ∧
    ({ txC1 with categoryId := none } : Transaction) ∈
      (destroy st0 1 cat7 (some none) (some 1)).2.1.transactions ∧
    txC2 ∈ (destroy st0 1 cat7 (some none) (some 1)).2.1.transactions ∧
    cat7 ∈ (destroy st0 1 cat7 (some none) (some 1)).2.1.categories ∧
    bud7 ∈ (destroy st0 1 cat7 (some none) (some 1)).2.1.budgets := by
  decide

/-- Claim C3 as amended: the three steps run as plain sequential store
writes with no surrounding transaction; when the k-th write fails with a
store error, the error is surfaced to the caller and the final state
reflects exactly the writes before the k-th — they are not rolled back. -/
theorem destroy_store_error_stops_at_failing_write (st : LedgerState) (u : Nat)
    (former : Category) (rep : Option Nat) (k : Nat)
    (hcheck : ∀ rid, rep = some rid → (Category.find st.categories u rid).isSome = true)
    (hk : k < (plannedWrites st u former.id rep).length) :
    destroy st u former (some rep) (some k) =
      (Except.error storeError,
       ((plannedWrites st u former.id rep).take k).foldl applyWrite st,
       (plannedWrites st u former.id rep).take k) := by
  have hrun := runWrites_fail (plannedWrites st u former.id rep) 0 k st hk
  rw [Nat.zero_add] at hrun
  cases rep with
  | none =>
    have hred : destroy st u former (some none) (some k) =
        runWrites (some k) (plannedWrites st u former.id none) 0 st := by
      cases hfind : Category.find st.categories u ((none : Option Nat).getD 0) <;>
        simp [destroy, hfind]
    rw [hred, hrun]
  | some rid =>
    obtain ⟨c, hc⟩ := Option.isSome_iff_exists.1 (hcheck rid rfl)
    have hred : destroy st u former (some (some rid)) (some k) =
        runWrites (some k) (plannedWrites st u former.id (some rid)) 0 st := by
      simp [destroy, Option.getD_some, hc]
    rw [hred, hrun]

/-- Witness for the amended C3: failing at the very first write leaves the
store untouched and surfaces the store error. -/
theorem destroy_store_error_stops_at_failing_write_witness :
    destroy st0 1 cat7 (some none) (some 0) =
      (Except.error storeError,
       ((plannedWrites st0 1 cat7.id none).take 0).foldl applyWrite st0,
       (plannedWrites st0 1 cat7.id none).take 0) :=
  destroy_store_error_stops_at_failing_write st0 1 cat7 none 0
    (fun rid h => by cases h) (by decide)

/-- Claim C5: a successful `destroy` with a null replacement re-points every
transaction of the user that referenced the category to the null category,
leaves no transaction referencing the deleted id, removes the category's
budgets and the category row, and its write trace performs all transaction
migrations first, then the budget removal, then the category-row removal
last. Hypotheses: every transaction referencing the category belongs to the
requesting user (categories are user-scoped), and transaction ids are unique
(primary keys). -/
theorem destroy_null_replacement_migrates (st : LedgerState) (u : Nat) (former : Category)
    (hwf : ∀ t ∈ st.transactions, t.categoryId = some former.id → t.userId = u)
    (hnodup : (st.transactions.map Transaction.id).Nodup) :
    (destroy st u former (some none) none).1 = Except.ok () ∧
    (∀ t ∈ (destroy st u former (some none) none).2.1.transactions,
      t.categoryId ≠ some former.id) ∧
    (destroy st u former (some none) none).2.1.transactions =
      st.transactions.map (fun t =>
        if t.userId = u ∧ t.categoryId = some former.id then { t with categoryId := none }
        else t) ∧
    (destroy st u former (some none) none).2.1.budgets =
      st.budgets.filter (fun b => !(b.userId == u && b.categoryId == former.id)) ∧
    (destroy st u former (some none) none).2.1.categories =
      st.categories.filter (fun c => !(c.userId == u && c.id == former.id)) ∧
    (destroy st u former (some none) none).2.2 =
      (Transaction.byCategory st.transactions u former.id).map
          (fun op => WriteOp.updateTransactionCategory u op.id none)
        ++ [WriteOp.destroyBudgetsForCategory u former.id none,
            WriteOp.destroyCategoryRow u former.id] := by
  have hred : destroy st u former (some none) none =
      runWrites none (plannedWrites st u former.id none) 0 st := by
    cases hfind : Category.find st.categories u ((none : Option Nat).getD 0) <;>
      simp [destroy, hfind]
  have hrun := runWrites_none (plannedWrites st u former.id none) 0 st
  have hmapmap : (Transaction.byCategory st.transactions u former.id).map
      (fun op => WriteOp.updateTransactionCategory u op.id none) =
      ((Transaction.byCategory st.transactions u former.id).map Transaction.id).map
        (fun i => WriteOp.updateTransactionCategory u i none) := by
    rw [List.map_map]
    rfl
  have hfold : (plannedWrites st u former.id none).foldl applyWrite st =
      { st with
        transactions := st.transactions.map
          (applyIdUpdates u none
            ((Transaction.byCategory st.transactions u former.id).map Transaction.id)),
        budgets := st.budgets.filter fun b => !(b.userId == u && b.categoryId == former.id),
        categories := st.categories.filter fun c => !(c.userId == u && c.id == former.id) } := by
    show ((Transaction.byCategory st.transactions u former.id).map
        (fun op => WriteOp.updateTransactionCategory u op.id none)
      ++ [WriteOp.destroyBudgetsForCategory u former.id none,
          WriteOp.destroyCategoryRow u former.id]).foldl applyWrite st = _
    rw [List.foldl_append, hmapmap, foldl_update_writes]
    rfl
  have hpoint : ∀ t ∈ st.transactions,
      applyIdUpdates u none
        ((Transaction.byCategory st.transactions u former.id).map Transaction.id) t =
      (if t.userId = u ∧ t.categoryId = some former.id then { t with categoryId := none }
       else t) := by
    intro t ht
    by_cases hcond : t.userId = u ∧ t.categoryId = some former.id
    · obtain ⟨hu, hcat⟩ := hcond
      have htop : t ∈ Transaction.byCategory st.transactions u former.id := by
        unfold Transaction.byCategory
        exact List.mem_filter.2 ⟨ht, by simp [hu, hcat]⟩
      have hin : t.id ∈ (Transaction.byCategory st.transactions u former.id).map
          Transaction.id :=
        List.mem_map.2 ⟨t, htop, rfl⟩
      simp [applyIdUpdates, hu, hcat, hin]
    · have hnotin : ¬(t.userId = u ∧ t.id ∈
          (Transaction.byCategory st.transactions u former.id).map Transaction.id) := by
        rintro ⟨hu, hin⟩
        rcases List.mem_map.1 hin with ⟨op, hop, hopid⟩
        have hop' : op ∈ st.transactions.filter
            (fun s => s.userId == u && s.categoryId == some former.id) := by
          unfold Transaction.byCategory at hop
          exact hop
        have hopmem : op ∈ st.transactions := List.mem_of_mem_filter hop'
        have hopprop := List.of_mem_filter hop'
        have heq : op = t := List.inj_on_of_nodup_map hnodup hopmem ht hopid
        rw [heq] at hopprop
        simp at hopprop
        exact hcond ⟨hu, hopprop.2⟩
      simp only [applyIdUpdates, if_neg hnotin, if_neg hcond]
  have htx : (destroy st u former (some none) none).2.1.transactions =
      st.transactions.map (fun t =>
        if t.userId = u ∧ t.categoryId = some former.id then { t with categoryId := none }
        else t) := by
    rw [hred, hrun]
    show ((plannedWrites st u former.id none).foldl applyWrite st).transactions = _
    rw [hfold]
    exact List.map_congr_left hpoint
  refine ⟨?_, ?_, htx, ?_, ?_, ?_⟩
  · rw [hred, hrun]
  · intro t ht hcat
    rw [htx] at ht
    rcases List.mem_map.1 ht with ⟨s, hs, rfl⟩
    by_cases hcond : s.userId = u ∧ s.categoryId = some former.id
    · rw [if_pos hcond] at hcat
      exact Option.noConfusion hcat
    · rw [if_neg hcond] at hcat
      exact hcond ⟨hwf s hs hcat, hcat⟩
  · rw [hred, hrun]
    show ((plannedWrites st u former.id none).foldl applyWrite st).budgets = _
    rw [hfold]
  · rw [hred, hrun]
    show ((plannedWrites st u former.id none).foldl applyWrite st).categories = _
    rw [hfold]
  · rw [hred, hrun]
    rfl

/-- Witness for C5 at a concrete store with two referencing transactions and
one budget. -/
theorem destroy_null_replacement_migrates_witness :
    (destroy st0 1 cat7 (some none) none).1 = Except.ok () ∧
    (∀ t ∈ (destroy st0 1 cat7 (some none) none).2.1.transactions,
      t.categoryId ≠ some cat7.id) ∧
    (destroy st0 1 cat7 (some none) none).2.1.transactions =
      st0.transactions.map (fun t =>
        if t.userId = 1 ∧ t.categoryId = some cat7.id then { t with categoryId := none }
        else t) ∧
    (destroy st0 1 cat7 (some none) none).2.1.budgets =
      st0.budgets.filter (fun b => !(b.userId == 1 && b.categoryId == cat7.id)) ∧
    (destroy st0 1 cat7 (some none) none).2.1.categories =
      st0.categories.filter (fun c => !(c.userId == 1 && c.id == cat7.id)) ∧
    (destroy st0 1 cat7 (some none) none).2.2 =
      (Transaction.byCategory st0.transactions 1 cat7.id).map
          (fun op => WriteOp.updateTransactionCategory 1 op.id none)
        ++ [WriteOp.destroyBudgetsForCategory 1 cat7.id none,
            WriteOp.destroyCategoryRow 1 cat7.id] :=
  destroy_null_replacement_migrates st0 1 cat7 (by decide) (by decide)

/-- Claim C6 counterexample: a transaction row with a malformed (NaN) amount
that passes the inclusion predicate is not skipped — it poisons the whole
aggregate, which becomes NaN instead of the sum of the remaining rows — and
no warning is ever recorded (the logger output is empty in every case, also
when a malformed-date row is silently dropped). -/
theorem computeJs_malformed_rows_counterexample :
    Account.computeBalanceJs acct6 [rawGood, rawNaN, rawBadDate] sampleDate (JsNum.num 0) =
      (JsNum.nan, []) ∧
    Account.computeOutstandingSumJs acct6 [rawFut, rawNaNFut, rawBadDate] false sampleDate =
      (JsNum.nan, []) ∧
    Account.computeBalanceJs acct6 [rawGood, rawBadDate] sampleDate (JsNum.num 0) =
      (JsNum.num 50, []) := by
  refine ⟨rfl, rfl, ?_⟩
  show (round2Js (JsNum.num (0 + 50)), ([] : List String)) = (JsNum.num 50, [])
  norm_num [round2Js, round2, jsRound, Rat.floor_def']

/-- Claim C6 as amended: balance and outstanding-sum recomputation never
record any warning; a malformed-date row is silently excluded by the
inclusion predicates; a malformed (NaN) amount on an included row is not
excluded — it propagates and the whole result is NaN. -/
theorem computeJs_never_warns_and_nan_propagates (a : Account) (txs : List TxRaw)
    (today : DateYMD) (offset : JsNum) (limit : Bool) :
    (Account.computeBalanceJs a txs today offset).2 = [] ∧
    (Account.computeOutstandingSumJs a txs limit today).2 = [] ∧
    (∀ ty acct, shouldIncludeInBalance none ty today acct = false) ∧
    (∀ ty, shouldIncludeInOutstandingSum none ty limit today = false) ∧
    (∀ t ∈ txs, t.userId = a.userId → t.accountId = a.id → t.amount = JsNum.nan →
      shouldIncludeInBalance t.date t.tType today a.type = true →
      (Account.computeBalanceJs a txs today offset).1 = JsNum.nan) := by
  refine ⟨rfl, rfl, fun ty acct => rfl, fun ty => rfl, ?_⟩
  intro t ht hu hacc hnan hinc
  have hmem1 : t ∈ txs.filter (fun s => s.userId == a.userId && s.accountId == a.id) :=
    List.mem_filter.2 ⟨ht, by simp [hu, hacc]⟩
  have hmem2 : t ∈ (txs.filter (fun s => s.userId == a.userId && s.accountId == a.id)).filter
      (fun op => shouldIncludeInBalance op.date op.tType today a.type) :=
    List.mem_filter.2 ⟨hmem1, hinc⟩
  show round2Js (((txs.filter fun s => s.userId == a.userId && s.accountId == a.id).filter
      fun op => shouldIncludeInBalance op.date op.tType today a.type).foldl
    (fun sum op => JsNum.add sum op.amount) offset) = JsNum.nan
  rw [foldl_addJs_nan _ offset ⟨t, hmem2, hnan⟩]
  rfl

/-- Witness for the amended C6 at a concrete account with one well-formed and
one NaN-amount row: no warning, NaN result. -/
theorem computeJs_never_warns_witness :
    (Account.computeBalanceJs acct6 [rawGood, rawNaN] sampleDate (JsNum.num 0)).2 = [] ∧
    (Account.computeBalanceJs acct6 [rawGood, rawNaN] sampleDate (JsNum.num 0)).1 =
      JsNum.nan :=
  ⟨(computeJs_never_warns_and_nan_propagates acct6 [rawGood, rawNaN] sampleDate
      (JsNum.num 0) false).1,
   (computeJs_never_warns_and_nan_propagates acct6 [rawGood, rawNaN] sampleDate
      (JsNum.num 0) false).2.2.2.2 rawNaN (by decide) rfl rfl rfl (by decide)⟩

/-- Claim C7: `computeBalance` is invariant under permutations of the
supplied transaction list (the included amounts form a commutative sum),
while remaining sensitive to the account type through the inclusion
predicate: the same deferred-card transaction is counted on a card account
and not on an unrecognized-type account. -/
theorem computeBalance_perm_invariant_and_type_sensitive :
    (∀ (a : Account) (txs txs' : List Transaction) (today : DateYMD) (offset : ℚ),
      txs.Perm txs' →
      Account.computeBalance a txs today offset = Account.computeBalance a txs' today offset) ∧
    (Account.computeBalance sampleCardAcct [sampleDeferredTx] sampleDate 0).2 ≠
      (Account.computeBalance sampleCheckingAcct [sampleDeferredTx] sampleDate 0).2 := by
  constructor
  · intro a txs txs' today offset hperm
    have hp : ((Transaction.byAccount txs a.userId a).filter fun op =>
        shouldIncludeInBalance op.date op.tType today a.type).Perm
        ((Transaction.byAccount txs' a.userId a).filter fun op =>
          shouldIncludeInBalance op.date op.tType today a.type) :=
      List.Perm.filter _ (List.Perm.filter _ hperm)
    have hsum := (hp.map Transaction.amount).sum_eq
    have e1 : Account.computeBalance a txs today offset =
        (a, round2 (offset + (((Transaction.byAccount txs a.userId a).filter fun op =>
          shouldIncludeInBalance op.date op.tType today a.type).map Transaction.amount).sum)) :=
      congrArg (fun z => (a, round2 z)) (foldl_add_eq Transaction.amount _ offset)
    have e2 : Account.computeBalance a txs' today offset =
        (a, round2 (offset + (((Transaction.byAccount txs' a.userId a).filter fun op =>
          shouldIncludeInBalance op.date op.tType today a.type).map Transaction.amount).sum)) :=
      congrArg (fun z => (a, round2 z)) (foldl_add_eq Transaction.amount _ offset)
    rw [e1, e2, hsum]
  · show round2 (0 + 20) ≠ round2 0
    norm_num [round2, jsRound, Rat.floor_def']

/-- Witness for C7: swapping two transactions leaves the computed balance
unchanged. -/
theorem computeBalance_perm_witness :
    Account.computeBalance sampleCardAcct [txW1, txW2] sampleDate 0 =
      Account.computeBalance sampleCardAcct [txW2, txW1] sampleDate 0 :=
  computeBalance_perm_invariant_and_type_sensitive.1 sampleCardAcct [txW1, txW2]
    [txW2, txW1] sampleDate 0 (List.Perm.swap txW2 txW1 [])

theorem windowPairs_zero_dates (l : List DupTx)
    (hs : List.Sorted (fun a b : DupTx => a.date ≤ b.date) l) :
    ∀ p ∈ windowPairs 0 l, p.1.date = p.2.date := by
  induction l with
  | nil => intro p hp; simp [windowPairs] at hp
  | cons x xs ih =>
    intro p hp
    rw [windowPairs] at hp
    rcases List.mem_append.1 hp with hp1 | hp2
    · rcases List.mem_map.1 hp1 with ⟨y, hy, rfl⟩
      have hyx : y.date ≤ x.date := by
        have hw := List.mem_takeWhile_imp hy
        simp [HOUR_MS] at hw
        omega
      have hxy : x.date ≤ y.date :=
        (List.sorted_cons.1 hs).1 y ((List.takeWhile_sublist _).subset hy)
      exact le_antisymm hxy hyx
    · exact ih (List.sorted_cons.1 hs).2 p hp2

/-- Claim C8: with `thresholdHours = 0` the matcher only ever reports pairs
of transactions with identical timestamps, and a non-numeric or negative
threshold is rejected as a configuration error before matching begins. -/
theorem findDuplicates_zero_and_invalid_thresholds :
    (∀ txs ig ex out, findDuplicates (some 0) txs ig ex = Except.ok out →
      ∀ p ∈ out, p.1.date = p.2.date) ∧
    (∀ txs ig ex,
      findDuplicates none txs ig ex = Except.error "invalid duplicate threshold") ∧
    (∀ t : Int, t < 0 → ∀ txs ig ex,
      findDuplicates (some t) txs ig ex = Except.error "invalid duplicate threshold") := by
  refine ⟨?_, fun txs ig ex => rfl, ?_⟩
  · intro txs ig ex out hout p hp
    have hsorted : List.Sorted (fun a b : DupTx => a.date ≤ b.date)
        (List.insertionSort (fun a b : DupTx => a.date ≤ b.date) txs) :=
      List.sorted_insertionSort _ txs
    have hout2 : (Except.ok ((windowPairs 0 (List.insertionSort
        (fun a b : DupTx => a.date ≤ b.date) txs)).filter fun q =>
          duplicateCandidate ig q.1 q.2 && !dismissedPair ex q.1 q.2) :
        Except String (List (DupTx × DupTx))) = Except.ok out := hout
    have hfe : (windowPairs 0 (List.insertionSort
        (fun a b : DupTx => a.date ≤ b.date) txs)).filter (fun q =>
          duplicateCandidate ig q.1 q.2 && !dismissedPair ex q.1 q.2) = out := by
      injection hout2
    rw [← hfe] at hp
    exact windowPairs_zero_dates _ hsorted p (List.mem_of_mem_filter hp)
  · intro t ht txs ig ex
    show (if t < 0 then Except.error "invalid duplicate threshold"
      else Except.ok ((windowPairs t (List.insertionSort
        (fun a b : DupTx => a.date ≤ b.date) txs)).filter fun q =>
          duplicateCandidate ig q.1 q.2 && !dismissedPair ex q.1 q.2)) =
      Except.error "invalid duplicate threshold"
    rw [if_pos ht]

/-- Witness for C8: two same-instant duplicates are reported and have equal
dates; missing and negative thresholds are rejected. -/
theorem findDuplicates_zero_witness :
    dupA.date = dupB.date ∧
    findDuplicates none [dupA, dupB] false [] =
      Except.error "invalid duplicate threshold" ∧
    findDuplicates (some (-1)) [dupA, dupB] false [] =
      Except.error "invalid duplicate threshold" :=
  ⟨findDuplicates_zero_and_invalid_thresholds.1 [dupA, dupB] false [] [(dupA, dupB)]
      (by decide) (dupA, dupB) (by decide),
   findDuplicates_zero_and_invalid_thresholds.2.1 [dupA, dupB] false [],
   findDuplicates_zero_and_invalid_thresholds.2.2 (-1) (by decide) [dupA, dupB] false []⟩

/-- Claim C10 counterexample: for a falsy account-type id (absent, or 0) the
lookup returns null but logs nothing — no diagnostic is recorded on that
path, contrary to the claim's "after logging a diagnostic". -/
theorem accountTypeIdToName_falsy_logs_nothing :
    accountTypeIdToName sampleTypeTable none = (none, []) ∧
    accountTypeIdToName sampleTypeTable (some 0) = (none, []) := by
  decide

/-- Claim C10 as amended: both helpers are total and never throw;
`accountTypeIdToName` returns null immediately and without logging for every
falsy input, and null after logging exactly one diagnostic for every present
id absent from the table; `accountTypeNameToId` returns -1 for every name
absent from the table. -/
theorem accountType_lookups_total (table : List AccountType) (externalId : Option Int)
    (name : String) :
    (falsyId externalId = true → accountTypeIdToName table externalId = (none, [])) ∧
    (∀ v, externalId = some v → falsyId externalId = false →
      accountTypeMapLookup table (toString v) = none →
      (accountTypeIdToName table externalId).1 = none ∧
      (accountTypeIdToName table externalId).2.length = 1) ∧
    ((∀ t ∈ table, t.name ≠ name) → accountTypeNameToId table name = -1) := by
  refine ⟨?_, ?_, ?_⟩
  · intro h
    unfold accountTypeIdToName
    rw [if_pos h]
  · rintro v rfl hf hlook
    unfold accountTypeIdToName
    rw [if_neg (by simp [hf])]
    simp only [Option.getD_some]
    rw [hlook]
    exact ⟨rfl, rfl⟩
  · intro h
    unfold accountTypeNameToId
    have hfind : table.find? (fun t => t.name == name) = none :=
      List.find?_eq_none.2 fun t htm => by simp [h t htm]
    rw [hfind]

/-- Witness for the amended C10: a missing id yields null with no log entry,
an unknown id 9 yields null with one diagnostic, an unknown name yields -1. -/
theorem accountType_lookups_total_witness :
    accountTypeIdToName sampleTypeTable none = (none, []) ∧
    (accountTypeIdToName sampleTypeTable (some 9)).1 = none ∧
    (accountTypeIdToName sampleTypeTable (some 9)).2.length = 1 ∧
    accountTypeNameToId sampleTypeTable "savings" = -1 :=
  ⟨(accountType_lookups_total sampleTypeTable none "savings").1 rfl,
   ((accountType_lookups_total sampleTypeTable (some 9) "savings").2.1 9 rfl rfl
      (by decide)).1,
   ((accountType_lookups_total sampleTypeTable (some 9) "savings").2.1 9 rfl rfl
      (by decide)).2,
   (accountType_lookups_total sampleTypeTable (some 9) "savings").2.2 (by decide)⟩
